import Mathlib

/-!
Verification of the StickyMessages addon (messageCreate handler, webhook
sweep, sticky slash command) and of the bundled VersionChecker, via a
shallow embedding of the JavaScript source into Lean.

Platform effects (Discord API calls, Mongo store) are modelled as explicit
oracles and explicit state: the Mongo collection is a list of records, the
per-channel cooldown `Map` is an association list, and each fallible
platform call is an oracle parameter of the corresponding function.
-/

namespace StickySpec

/-- Persisted sticky record, one document per channel (the StickyModel
schema as used by the code: `channelId`, `message`, `msgCount`,
`messageId`, `useWebhook`, webhook identity fields). -/
structure StickyRecord where
  channelId : String
  message : String
  msgCount : Nat
  messageId : Option String
  useWebhook : Bool
  webhookId : Option String
  webhookToken : Option String
  webhookName : Option String
  webhookAvatarURL : Option String
deriving DecidableEq, Repr

/-- The fields of `config.yml` that the embedded code reads.  Optional
string fields model absent YAML keys (JS `undefined`/falsy). -/
structure Config where
  Enabled : Bool
  MaxMessages : Nat
  EnableEmbeds : Bool
  StickiedMessageTitle : String
  WebhooksName : Option String
  WebhooksAvatarURL : Option String
  WebhooksEnabledByDefault : Bool
deriving DecidableEq, Repr

/-- `StickyMessageModel.findOne({ channelId: cid })`: first record whose
`channelId` matches. -/
def findOne (store : List StickyRecord) (cid : String) : Option StickyRecord :=
  store.find? (fun r => r.channelId == cid)

/-- `StickyMessageModel.findByIdAndUpdate(rec._id, ...)`: apply `f` to the
record(s) keyed by `cid` (channel ids are unique in the collection, so this
touches at most one document). -/
def updateRecord (store : List StickyRecord) (cid : String)
    (f : StickyRecord → StickyRecord) : List StickyRecord :=
  store.map (fun r => if r.channelId == cid then f r else r)

/-- `findByIdAndUpdate(rec._id, { $inc: { msgCount: 1 } })`. -/
def incMsgCount (store : List StickyRecord) (cid : String) : List StickyRecord :=
  updateRecord store cid (fun r => { r with msgCount := r.msgCount + 1 })

/-- `StickyMessage.findOneAndDelete({ channelId: cid })`: remove the first
matching document. -/
def deleteOne : List StickyRecord → String → List StickyRecord
  | [], _ => []
  | r :: rs, cid => if r.channelId == cid then rs else r :: deleteOne rs cid

/-- `cooldowns.get(cid)` on the module-level `Map`. -/
def cdGet (cds : List (String × Nat)) (cid : String) : Option Nat :=
  (cds.find? (fun p => p.1 == cid)).map Prod.snd

/-- `cooldowns.set(cid, t)`: replace the entry if present, else append. -/
def cdSet (cds : List (String × Nat)) (cid : String) (t : Nat) : List (String × Nat) :=
  if (cds.find? (fun p => p.1 == cid)).isSome then
    cds.map (fun p => if p.1 == cid then (cid, t) else p)
  else
    cds ++ [(cid, t)]

/-- An inbound (or fetched) platform message: id, author, channel, guild
presence, text content and the descriptions of its embeds. -/
structure Msg where
  id : String
  authorId : String
  channelId : String
  hasGuild : Bool
  content : String
  embedDescriptions : List String
deriving DecidableEq, Repr

/-- Oracles for the platform calls the messageCreate handler makes:
whether `messages.fetch(messageId)` finds the old artifact (a fetch
rejection is turned into `null` by `.catch(() => null)`), the result of the
bulk `messages.fetch()` used by the content-match fallback, and the
outcomes of `hookClient.send` / `channel.send` (`some id` on success,
`none` when the call rejects). -/
structure Platform where
  fetchOldFound : String → Bool
  recentMessages : List Msg
  webhookSend : Option String
  channelSend : Option String

/-- JS `hay.includes(needle)` on strings. -/
def strIncludes (hay needle : String) : Bool :=
  if needle == "" then true else (hay.splitOn needle).length ≥ 2

/-- The fallback delete-by-content match of lines 72-75 of the handler:
plain mode matches truthy `msg.content` containing the sticky text, embed
mode matches some embed whose truthy `description` contains it. -/
def fallbackMatches (cfg : Config) (stickyText : String) (m : Msg) : Bool :=
  (!cfg.EnableEmbeds && !(m.content == "") && strIncludes m.content stickyText) ||
  (cfg.EnableEmbeds && m.embedDescriptions.any
     (fun d => !(d == "") && strIncludes d stickyText))

/-- Best-effort deletion of the previous artifact (lines 66-79): by stored
`messageId` when present (the `delete()` call happens only if the fetch
found it; its own failure is swallowed), otherwise by scanning the fetched
recent messages for a content/embed match.  Returns the ids passed to
`delete()` calls. -/
def deleteOldStep (cfg : Config) (p : Platform) (rec : StickyRecord) : List String :=
  match rec.messageId with
  | some mid => if p.fetchOldFound mid then [mid] else []
  | none =>
    (p.recentMessages.filter (fun m => fallbackMatches cfg rec.message m)).map (fun m => m.id)

/-- The dispatch block of lines 95-119: webhook first when `useWebhook`
and both identity fields are present, with fallback to `channel.send` when
the webhook send rejects; otherwise a direct `channel.send`.  Returns the
new artifact id (`none` when every attempted path rejected, which escapes
the handler) together with the number of webhook-send and channel-send
calls made. -/
def dispatchStep (cfg : Config) (p : Platform) (rec : StickyRecord) :
    Option String × Nat × Nat :=
  if rec.useWebhook && rec.webhookId.isSome && rec.webhookToken.isSome then
    match p.webhookSend with
    | some aid => (some aid, 1, 0)
    | none =>
      match p.channelSend with
      | some aid => (some aid, 1, 1)
      | none => (none, 1, 1)
  else
    match p.channelSend with
    | some aid => (some aid, 0, 1)
    | none => (none, 0, 1)

/-- The debounce gate of line 62: `!cooldowns.has(id) || cooldowns.get(id)
<= Date.now()`. -/
def eligibleAt (cds : List (String × Nat)) (cid : String) (now : Nat) : Bool :=
  match cdGet cds cid with
  | none => true
  | some t => decide (t ≤ now)

/-- Observable events of one handler invocation: whether the `$inc` of
`msgCount` was persisted, the ids passed to `delete()` calls, the send
calls made, and how many times the delete-and-dispatch repost block ran. -/
structure Trace where
  counted : Bool
  deleteCalls : List String
  webhookSendCalls : Nat
  channelSendCalls : Nat
  dispatches : Nat
deriving DecidableEq, Repr

/-- Trace of a handler invocation that returned before touching the store. -/
def emptyTrace : Trace :=
  { counted := false, deleteCalls := [], webhookSendCalls := 0,
    channelSendCalls := 0, dispatches := 0 }

/-- Mutable state the handler touches: the Mongo collection and the
module-level cooldown map. -/
structure SysState where
  store : List StickyRecord
  cooldowns : List (String × Nat)
deriving DecidableEq, Repr

/-- Result of one messageCreate invocation: the state afterwards, whether
an error escaped the (async) handler, and the event trace. -/
structure Outcome where
  store : List StickyRecord
  cooldowns : List (String × Nat)
  thrown : Bool
  trace : Trace
deriving DecidableEq, Repr

/-- The messageCreate handler (lines 54-127 of the addon), at time `now`
(`Date.now()`).  Self-authored and non-guild messages are ignored; with a
record present, `msgCount` is `$inc`-remented first, then the cooldown gate
is checked; when eligible the cooldown is set to `now + 1000` ms and the
threshold decision compares the in-memory record's `msgCount` — the value
read *before* the `$inc` — against `config.MaxMessages`. -/
def messageCreate (cfg : Config) (p : Platform) (clientUserId : String)
    (now : Nat) (m : Msg) (st : SysState) : Outcome :=
  if m.authorId == clientUserId || !m.hasGuild then
    { store := st.store, cooldowns := st.cooldowns, thrown := false, trace := emptyTrace }
  else
    match findOne st.store m.channelId with
    | none =>
      { store := st.store, cooldowns := st.cooldowns, thrown := false, trace := emptyTrace }
    | some rec =>
      let store1 := incMsgCount st.store m.channelId
      if eligibleAt st.cooldowns m.channelId now then
        let cds := cdSet st.cooldowns m.channelId (now + 1 * 1000)
        if cfg.MaxMessages ≤ rec.msgCount then
          let dels := deleteOldStep cfg p rec
          let d := dispatchStep cfg p rec
          match d.1 with
          | some aid =>
            { store := updateRecord store1 m.channelId
                (fun s => { s with msgCount := 0, messageId := some aid }),
              cooldowns := cds, thrown := false,
              trace := { counted := true, deleteCalls := dels,
                         webhookSendCalls := d.2.1, channelSendCalls := d.2.2,
                         dispatches := 1 } }
          | none =>
            { store := store1, cooldowns := cds, thrown := true,
              trace := { counted := true, deleteCalls := dels,
                         webhookSendCalls := d.2.1, channelSendCalls := d.2.2,
                         dispatches := 1 } }
        else
          { store := store1, cooldowns := cds, thrown := false,
            trace := { counted := true, deleteCalls := [], webhookSendCalls := 0,
                       channelSendCalls := 0, dispatches := 0 } }
      else
        { store := store1, cooldowns := st.cooldowns, thrown := false,
          trace := { counted := true, deleteCalls := [], webhookSendCalls := 0,
                     channelSendCalls := 0, dispatches := 0 } }

/-- Run the handler over a timed sequence of inbound messages, threading
the state and accumulating the total number of repost dispatches and the
concatenated list of delete-call ids. -/
def runMessages (cfg : Config) (p : Platform) (clientUserId : String) :
    List (Nat × Msg) → SysState → SysState × Nat × List String
  | [], st => (st, 0, [])
  | (now, m) :: rest, st =>
    let o := messageCreate cfg p clientUserId now m st
    let r := runMessages cfg p clientUserId rest { store := o.store, cooldowns := o.cooldowns }
    (r.1, o.trace.dispatches + r.2.1, o.trace.deleteCalls ++ r.2.2)

instance {ε α : Type} [DecidableEq ε] [DecidableEq α] : DecidableEq (Except ε α) :=
  fun x y =>
    match x, y with
    | .ok a, .ok b =>
      if h : a = b then isTrue (by rw [h])
      else isFalse (by intro hc; cases hc; exact h rfl)
    | .ok _, .error _ => isFalse (by intro hc; cases hc)
    | .error _, .ok _ => isFalse (by intro hc; cases hc)
    | .error e, .error f =>
      if h : e = f then isTrue (by rw [h])
      else isFalse (by intro hc; cases hc; exact h rfl)

/-- Oracles for the platform calls the `ensureWebhooks` sweep makes on one
channel: the outcome of `channel.fetchWebhooks()` (the ids of the current
webhooks, or a rejection) and the outcome of `channel.createWebhook(...)`
(a fresh `{id, token}`, or a rejection). -/
structure SweepChan where
  fetchHooks : Except Unit (List String)
  createHook : Except Unit (String × String)
deriving DecidableEq, Repr

/-- One iteration of the `ensureWebhooks` loop (lines 15-43) on a single
record: records without `useWebhook` are not in the `find({useWebhook:
true})` result set and are untouched; a missing channel is skipped;
`needCreate` holds when either identity field is absent, when the webhook
fetch rejects, or when the stored id is not among the channel's webhooks;
on `needCreate` a webhook is created (failures swallowed) and on success
the identity fields are persisted.  Returns the resulting record and the
number of `createWebhook` calls made. -/
def sweepOne (cfg : Config) (chans : String → Option SweepChan)
    (rec : StickyRecord) : StickyRecord × Nat :=
  if !rec.useWebhook then (rec, 0)
  else
    match chans rec.channelId with
    | none => (rec, 0)
    | some ch =>
      let needCreate :=
        match rec.webhookId, rec.webhookToken with
        | some wid, some _ =>
          (match ch.fetchHooks with
           | .ok hooks => !hooks.contains wid
           | .error _ => true)
        | _, _ => true
      if needCreate then
        let name := rec.webhookName.getD (cfg.WebhooksName.getD "Sticky")
        let avatarURL :=
          match rec.webhookAvatarURL with
          | some a => some a
          | none => cfg.WebhooksAvatarURL
        match ch.createHook with
        | .ok idTok =>
          ({ rec with
              webhookId := some idTok.1, webhookToken := some idTok.2,
              webhookName := some name, webhookAvatarURL := avatarURL }, 1)
        | .error _ => (rec, 1)
      else (rec, 0)

/-- The whole `ensureWebhooks` sweep (lines 12-45) over the store: every
record is processed independently by `sweepOne`; per-record failures never
abort the loop.  Returns the store afterwards and the total number of
`createWebhook` calls. -/
def ensureWebhooks (cfg : Config) (chans : String → Option SweepChan) :
    List StickyRecord → List StickyRecord × Nat
  | [] => ([], 0)
  | rec :: rest =>
    let r := sweepOne cfg chans rec
    let rs := ensureWebhooks cfg chans rest
    (r.1 :: rs.1, r.2 + rs.2)

/-- A record whose webhook identity is healthy for the sweep: both identity
fields stored, the channel is cached, the webhook fetch succeeds and lists
the stored id. -/
def Healthy (chans : String → Option SweepChan) (rec : StickyRecord) : Prop :=
  ∃ wid wtok ch hooks,
    rec.webhookId = some wid ∧ rec.webhookToken = some wtok ∧
    chans rec.channelId = some ch ∧ ch.fetchHooks = .ok hooks ∧ hooks.contains wid = true

/-- Result of the `create` subcommand: the channel already has a sticky
(rejected), an error escaped the command (webhook creation or channel send
rejected outside any catch), or the record was created. -/
inductive CreateOutcome
  | alreadyExists
  | thrown
  | ok (store : List StickyRecord)
deriving DecidableEq, Repr

/-- The `create` subcommand (lines 482-549 of the command module), after
the permission/enabled gates of the excluded command layer.  `webhookOpt`
is the optional `webhook` boolean option; `createHook` is the
`createWebhook` outcome, `hookSend` the webhook-send outcome (its failure
is caught and flips `useWebhook` off), `chanSend` the `channel.send`
outcome.  The new record always starts at `msgCount = 0` with the posted
artifact's id. -/
def createExecute (cfg : Config) (store : List StickyRecord) (cid msgRaw : String)
    (webhookOpt : Option Bool) (createHook : Except Unit (String × String))
    (hookSend : Option String) (chanSend : Option String) : CreateOutcome :=
  if (findOne store cid).isSome then .alreadyExists
  else
    let msg := msgRaw.replace "\\n" "\n"
    let useWebhook0 :=
      match webhookOpt with
      | some b => b
      | none => cfg.WebhooksEnabledByDefault
    let mkRec (u : Bool) (sid : String) (wid wtok wname wav : Option String) :
        StickyRecord :=
      { channelId := cid, message := msg, msgCount := 0, messageId := some sid,
        useWebhook := u, webhookId := wid, webhookToken := wtok,
        webhookName := wname, webhookAvatarURL := wav }
    if useWebhook0 then
      match createHook with
      | .error _ => .thrown
      | .ok idTok =>
        let wname := cfg.WebhooksName.getD "Sticky"
        match hookSend with
        | some sid =>
          .ok (store ++ [mkRec true sid (some idTok.1) (some idTok.2)
                (some wname) cfg.WebhooksAvatarURL])
        | none =>
          match chanSend with
          | some sid => .ok (store ++ [mkRec false sid none none none none])
          | none => .thrown
    else
      match chanSend with
      | some sid => .ok (store ++ [mkRec false sid none none none none])
      | none => .thrown

/-- A cached channel as the `list` subcommand sees it. -/
structure ChannelInfo where
  name : String
deriving DecidableEq, Repr

/-- The loop body of the `list` subcommand (lines 590-602): iterate the
snapshot `snap` of the store; a record whose channel is in the client cache
is rendered as an embed field triple (channel name, message, webhook
yes/no); a record whose channel is not cached is `findOneAndDelete`-d from
the live store. -/
def listLoop (cache : String → Option ChannelInfo) :
    List StickyRecord → List StickyRecord →
    List StickyRecord × List (String × String × String)
  | store, [] => (store, [])
  | store, rec :: rest =>
    match cache rec.channelId with
    | some ch =>
      let r := listLoop cache store rest
      (r.1, (ch.name, rec.message, if rec.useWebhook then "Yes" else "No") :: r.2)
    | none => listLoop cache (deleteOne store rec.channelId) rest

/-- The `list` subcommand (lines 579-605): take the `find()` snapshot of
the whole store and run the loop over it against the live store. -/
def listExecute (cache : String → Option ChannelInfo)
    (records : List StickyRecord) :
    List StickyRecord × List (String × String × String) :=
  listLoop cache records records

/-- The `options` object of the VersionChecker constructor, restricted to
the fields `fetchWithRetry` reads.  JS `options.timeout || 10000` treats a
missing (or zero) value as the default, likewise `options.retries || 2`. -/
structure VCOptions where
  timeout : Nat
  retries : Nat
deriving DecidableEq, Repr

/-- Constructor defaulting (lines 43-44 of VersionChecker.js). -/
def mkOptions (timeoutOpt retriesOpt : Option Nat) : VCOptions :=
  { timeout :=
      match timeoutOpt with
      | some t => if t == 0 then 10000 else t
      | none => 10000,
    retries :=
      match retriesOpt with
      | some r => if r == 0 then 2 else r
      | none => 2 }

/-- The `for (attempt = 1; attempt <= retries; attempt++)` loop of
`fetchWithRetry` (lines 107-138).  `oracle a t` is the outcome of the
fetch at attempt number `a` with abort timeout `t`: the parsed body, or a
rejection message (HTTP error, abort, network error).  `fuel` counts the
iterations left; exhausting it without entering the body models the JS
function returning `undefined` (`.ok none`).  Returns the result, the
number of attempts made, and the list of backoff delays awaited. -/
def fetchLoop (oracle : Nat → Nat → Except String String) (timeout retries : Nat) :
    Nat → Nat → Except String (Option String) × Nat × List Nat
  | _, 0 => (.ok none, 0, [])
  | attempt, fuel + 1 =>
    match oracle attempt timeout with
    | .ok v => (.ok (some v), 1, [])
    | .error e =>
      if attempt == retries then
        (.error ("Failed after " ++ toString retries ++ " attempts: " ++ e), 1, [])
      else
        let r := fetchLoop oracle timeout retries (attempt + 1) fuel
        (r.1, r.2.1 + 1, 1000 * attempt :: r.2.2)

/-- `fetchWithRetry(url)`: attempts numbered 1 .. `retries`, each with the
configured abort timeout. -/
def fetchWithRetry (opts : VCOptions) (oracle : Nat → Nat → Except String String) :
    Except String (Option String) × Nat × List Nat :=
  fetchLoop oracle opts.timeout opts.retries 1 opts.retries

/-- JS `str.split(sep)` for a one-character separator, on the character
list of the string (splitting an empty string yields `[""]`, like JS). -/
def splitOnChar (sep : Char) : List Char → List (List Char)
  | [] => [[]]
  | c :: rest =>
    let r := splitOnChar sep rest
    if c == sep then [] :: r
    else
      match r with
      | [] => [[c]]
      | g :: gs => (c :: g) :: gs

/-- Decimal value of a digit run. -/
def digitsVal (digits : List Char) : Nat :=
  digits.foldl (fun acc c => acc * 10 + (c.toNat - '0'.toNat)) 0

/-- JS `parseInt(s, 10)`: skip leading whitespace, optional sign, then a
run of decimal digits; `none` models `NaN`. -/
def parseIntJS (s : List Char) : Option Int :=
  let cs := s.dropWhile (fun c => c.isWhitespace)
  let signAndRest : Int × List Char :=
    match cs with
    | '-' :: rest => (-1, rest)
    | '+' :: rest => (1, rest)
    | rest => (1, rest)
  let digits := signAndRest.2.takeWhile (fun c => c.isDigit)
  if digits.isEmpty then none
  else some (signAndRest.1 * (digitsVal digits : Nat))

/-- `parseVersion` (lines 71-75): strip one leading `v`/`V` (the
`replace(/^v/i, '')`), split on `.`, `parseInt` each part with `|| 0`
collapsing `NaN` (and an explicit 0) to 0. -/
def parseVersion (version : String) : List Int :=
  let cleanVersion : List Char :=
    match version.toList with
    | 'v' :: rest => rest
    | 'V' :: rest => rest
    | l => l
  (splitOnChar '.' cleanVersion).map (fun num => (parseIntJS num).getD 0)

/-- The comparison loop of `compareVersions` (lines 89-95): walk indices
`0 .. maxLength - 1`, missing components read as 0. -/
def cmpFrom (cp lp : List Int) : Nat → Nat → Int
  | _, 0 => 0
  | i, remaining + 1 =>
    let c := cp.getD i 0
    let l := lp.getD i 0
    if c < l then -1 else if l < c then 1 else cmpFrom cp lp (i + 1) remaining

/-- `compareVersions(current, latest)` (lines 83-98). -/
def compareVersions (current latest : String) : Int :=
  let currentParts := parseVersion current
  let latestParts := parseVersion latest
  cmpFrom currentParts latestParts 0 (max currentParts.length latestParts.length)

/-- The slice of a fetched registry payload that `checkForUpdates` reads:
the latest-version object (possibly `null`) carrying a `version` string
field (possibly `undefined`). -/
structure FetchData where
  latestVersion : Option (Option String)
deriving DecidableEq, Repr

/-- The result fields of `checkForUpdates` that the claims are about. -/
structure CheckResult where
  success : Bool
  isOutdated : Bool
  isCurrent : Bool
  isNewer : Bool
  current : String
  latest : Option String
  error : Option String
deriving DecidableEq, Repr

/-- `checkForUpdates` (lines 200-264): choose legacy or API-with-legacy-
fallback data, answer a fixed `isCurrent` result when no version object
came back, otherwise compare version strings; every rejection (including
`compareVersions` on an `undefined` version string, which throws inside
the `try`) is caught and returned as `success = false` with the three
status flags false. -/
def checkForUpdates (currentVersion : String) (useLegacyApi : Bool)
    (apiResult legacyResult : Except String FetchData) : CheckResult :=
  let dataE : Except String FetchData :=
    if useLegacyApi then legacyResult
    else
      match apiResult with
      | .ok d => .ok d
      | .error _ => legacyResult
  match dataE with
  | .error e =>
    { success := false, isOutdated := false, isCurrent := false, isNewer := false,
      current := currentVersion, latest := none, error := some e }
  | .ok data =>
    match data.latestVersion with
    | none =>
      { success := true, isOutdated := false, isCurrent := true, isNewer := false,
        current := currentVersion, latest := some currentVersion, error := none }
    | some verField =>
      match verField with
      | none =>
        { success := false, isOutdated := false, isCurrent := false, isNewer := false,
          current := currentVersion, latest := none,
          error := some "Cannot read properties of undefined" }
      | some latestVersionStr =>
        let comparison := compareVersions currentVersion latestVersionStr
        { success := true,
          isOutdated := decide (comparison < 0),
          isNewer := decide (0 < comparison),
          isCurrent := comparison == 0,
          current := currentVersion, latest := some latestVersionStr, error := none }

/-! Helper lemmas about the store, the cooldown map, the sweep, the list
loop, the retry loop and the version comparison. -/

theorem findOne_updateRecord (s : List StickyRecord) (cid : String)
    (f : StickyRecord → StickyRecord) (hf : ∀ r, (f r).channelId = r.channelId) :
    findOne (updateRecord s cid f) cid = (findOne s cid).map f := by
  induction s with
  | nil => rfl
  | cons r rs ih =>
    by_cases h : r.channelId = cid
    · simp [findOne, updateRecord, List.find?, hf r, h]
    · have hb : (r.channelId == cid) = false := beq_eq_false_iff_ne.mpr h
      simp only [findOne, updateRecord, List.map_cons] at *
      rw [if_neg (by simp [hb])]
      simp only [List.find?, hb]
      exact ih

theorem findOne_incMsgCount (s : List StickyRecord) (cid : String) :
    findOne (incMsgCount s cid) cid =
      (findOne s cid).map (fun r => { r with msgCount := r.msgCount + 1 }) :=
  findOne_updateRecord s cid _ (fun _ => rfl)

theorem cdGet_append_single (cds : List (String × Nat)) (cid : String) (t : Nat)
    (h : cds.find? (fun p => p.1 == cid) = none) :
    cdGet (cds ++ [(cid, t)]) cid = some t := by
  induction cds with
  | nil => simp [cdGet, List.find?]
  | cons p rest ih =>
    rw [List.find?_cons] at h
    rcases hb : (p.1 == cid) with _ | _
    · rw [hb] at h
      simp only [List.cons_append, cdGet, List.find?_cons, hb]
      exact ih h
    · rw [hb] at h
      exact absurd h (by simp)

theorem cdGet_map_set (cds : List (String × Nat)) (cid : String) (t : Nat)
    (h : (cds.find? (fun p => p.1 == cid)).isSome = true) :
    cdGet (cds.map (fun p => if p.1 == cid then (cid, t) else p)) cid = some t := by
  induction cds with
  | nil => simp [List.find?] at h
  | cons p rest ih =>
    rcases hb : (p.1 == cid) with _ | _
    · rw [List.find?_cons, hb] at h
      simp only [List.map_cons, cdGet, List.find?_cons, hb, if_neg, Bool.false_eq_true,
        if_false]
      exact ih h
    · simp only [List.map_cons, hb, if_true, cdGet, List.find?_cons]
      have hc : ((cid, t).1 == cid) = true := by simp
      rw [hc]
      rfl

theorem cdGet_cdSet (cds : List (String × Nat)) (cid : String) (t : Nat) :
    cdGet (cdSet cds cid t) cid = some t := by
  unfold cdSet
  rcases h : cds.find? (fun p => p.1 == cid) with _ | q
  · rw [if_neg (by simp [h])]
    exact cdGet_append_single cds cid t h
  · rw [if_pos (by simp [h])]
    exact cdGet_map_set cds cid t (by simp [h])

theorem cmpFrom_self (cp : List Int) : ∀ rem i, cmpFrom cp cp i rem = 0 := by
  intro rem
  induction rem with
  | zero => intro i; rfl
  | succ r ih =>
    intro i
    simp only [cmpFrom, lt_irrefl, if_false]
    exact ih (i + 1)

theorem compareVersions_self (v : String) : compareVersions v v = 0 :=
  cmpFrom_self (parseVersion v) _ 0

theorem sweepOne_healthy (cfg : Config) (chans : String → Option SweepChan)
    (rec : StickyRecord) (hW : rec.useWebhook = true) (hH : Healthy chans rec) :
    sweepOne cfg chans rec = (rec, 0) := by
  obtain ⟨wid, wtok, ch, hooks, h1, h2, h3, h4, h5⟩ := hH
  simp only [sweepOne, hW, Bool.not_true, Bool.false_eq_true, if_false, h1, h2, h3, h4, h5,
    Bool.not_true]

theorem sweepOne_not_webhook (cfg : Config) (chans : String → Option SweepChan)
    (rec : StickyRecord) (hW : rec.useWebhook = false) :
    sweepOne cfg chans rec = (rec, 0) := by
  simp [sweepOne, hW]

theorem ensureWebhooks_healthy (cfg : Config) (chans : String → Option SweepChan)
    (store : List StickyRecord)
    (h : ∀ r ∈ store, r.useWebhook = true → Healthy chans r) :
    ensureWebhooks cfg chans store = (store, 0) := by
  induction store with
  | nil => rfl
  | cons r rest ih =>
    have hr : sweepOne cfg chans r = (r, 0) := by
      rcases hw : r.useWebhook with _ | _
      · exact sweepOne_not_webhook cfg chans r hw
      · exact sweepOne_healthy cfg chans r hw (h r (List.mem_cons_self r rest) hw)
    have hrest : ensureWebhooks cfg chans rest = (rest, 0) :=
      ih (fun x hx hwx => h x (List.mem_cons_of_mem r hx) hwx)
    simp [ensureWebhooks, hr, hrest]

theorem deleteOne_eq_filter (l : List StickyRecord) (cid : String)
    (h : (l.map StickyRecord.channelId).Nodup) :
    deleteOne l cid = l.filter (fun r => !(r.channelId == cid)) := by
  induction l with
  | nil => rfl
  | cons r rs ih =>
    rw [List.map_cons, List.nodup_cons] at h
    obtain ⟨hn, hnd⟩ := h
    rcases hb : (r.channelId == cid) with _ | _
    · simp only [deleteOne, hb, Bool.false_eq_true, if_false, List.filter_cons,
        Bool.not_false, if_true]
      rw [ih hnd]
    · simp only [deleteOne, hb, if_true, List.filter_cons, Bool.not_true,
        Bool.false_eq_true, if_false]
      have heq : r.channelId = cid := beq_iff_eq.mp hb
      symm
      apply List.filter_eq_self.mpr
      intro x hx
      have : x.channelId ≠ cid := by
        intro hc
        exact hn (by rw [← heq] at hc; exact hc ▸ List.mem_map_of_mem StickyRecord.channelId hx)
      simp [this]

theorem listLoop_snd (cache : String → Option ChannelInfo) :
    ∀ (snap store : List StickyRecord),
      (listLoop cache store snap).2 = snap.filterMap
        (fun r => (cache r.channelId).map
          (fun ch => (ch.name, r.message, if r.useWebhook then "Yes" else "No"))) := by
  intro snap
  induction snap with
  | nil => intro store; rfl
  | cons rec rest ih =>
    intro store
    rcases hc : cache rec.channelId with _ | ch
    · simp [listLoop, hc, List.filterMap_cons, ih]
    · simp [listLoop, hc, List.filterMap_cons, ih]

theorem beq_str_comm (x y : String) : (x == y) = (y == x) := by
  by_cases h : x = y
  · simp [h]
  · simp [h, Ne.symm h]

theorem listLoop_fst (cache : String → Option ChannelInfo) :
    ∀ (snap store : List StickyRecord), (store.map StickyRecord.channelId).Nodup →
      (listLoop cache store snap).1 = store.filter
        (fun r => !(snap.any (fun s => s.channelId == r.channelId && (cache s.channelId).isNone))) := by
  intro snap
  induction snap with
  | nil =>
    intro store _
    simp [listLoop]
  | cons s rest ih =>
    intro store hnd
    rcases hc : cache s.channelId with _ | ch
    · simp only [listLoop, hc]
      have hsub : ((deleteOne store s.channelId).map StickyRecord.channelId).Nodup := by
        rw [deleteOne_eq_filter store s.channelId hnd]
        exact List.Nodup.sublist (List.Sublist.map _ (List.filter_sublist store)) hnd
      rw [ih (deleteOne store s.channelId) hsub,
        deleteOne_eq_filter store s.channelId hnd, List.filter_filter]
      apply List.filter_congr
      intro r _
      simp only [List.any_cons, hc, Option.isNone_none, Bool.and_true, Bool.not_or,
        beq_str_comm s.channelId r.channelId]
      exact Bool.and_comm _ _
    · simp only [listLoop, hc]
      rw [ih store hnd]
      apply List.filter_congr
      intro r _
      simp [List.any_cons, hc]

theorem fetchLoop_spec (oracle : Nat → Nat → Except String String) (t R : Nat) :
    ∀ (fuel attempt : Nat), attempt + fuel = R + 1 →
      (fetchLoop oracle t R attempt fuel).2.1 ≤ fuel ∧
      (1 ≤ fuel → 1 ≤ (fetchLoop oracle t R attempt fuel).2.1) ∧
      (∀ e, (fetchLoop oracle t R attempt fuel).1 = .error e →
        (fetchLoop oracle t R attempt fuel).2.1 = fuel ∧
        ∃ msg, oracle R t = .error msg) ∧
      (fetchLoop oracle t R attempt fuel).2.2 =
        (List.range ((fetchLoop oracle t R attempt fuel).2.1 - 1)).map
          (fun i => 1000 * (attempt + i)) := by
  intro fuel
  induction fuel with
  | zero =>
    intro attempt _
    refine ⟨Nat.le_refl 0, fun h => absurd h (by omega), fun e he => ?_, by simp [fetchLoop]⟩
    simp [fetchLoop] at he
  | succ f ih =>
    intro attempt hinv
    rcases ho : oracle attempt t with e0 | v
    · by_cases hR : attempt = R
      · have hf : f = 0 := by omega
        subst hf hR
        simp [fetchLoop, ho]
      · have hbR : (attempt == R) = false := beq_eq_false_iff_ne.mpr hR
        have hf1 : 1 ≤ f := by omega
        have hinv2 : (attempt + 1) + f = R + 1 := by omega
        obtain ⟨ihle, ihpos, iherr, ihdel⟩ := ih (attempt + 1) hinv2
        simp only [fetchLoop, ho, hbR, Bool.false_eq_true, if_false]
        refine ⟨by omega, fun _ => by omega, fun e he => ?_, ?_⟩
        · obtain ⟨hn, msg, hmsg⟩ := iherr e he
          exact ⟨by omega, ⟨msg, hmsg⟩⟩
        · have hpos : 1 ≤ (fetchLoop oracle t R (attempt + 1) f).2.1 := ihpos hf1
          set n := (fetchLoop oracle t R (attempt + 1) f).2.1 with hn
          have hsn : n - 1 + 1 = n := Nat.succ_pred_eq_of_pos hpos
          have hrange : List.range (n + 1 - 1) = List.range (n - 1 + 1) := by
            rw [hsn]
            simp
          rw [ihdel, hrange, List.range_succ_eq_map, List.map_cons, List.map_map]
          have htail : List.map (fun i => 1000 * (attempt + 1 + i)) (List.range (n - 1)) =
              List.map ((fun i => 1000 * (attempt + i)) ∘ Nat.succ) (List.range (n - 1)) := by
            apply List.map_congr_left
            intro a _
            simp only [Function.comp_apply, Nat.succ_eq_add_one]
            omega
          rw [htail]
          simp
    · simp only [fetchLoop, ho]
      exact ⟨by omega, fun _ => by omega, fun e he => by simp at he, by simp⟩

theorem fetchLoop_timeout_only (oracle : Nat → Nat → Except String String) (t R : Nat) :
    ∀ (fuel attempt : Nat),
      fetchLoop oracle t R attempt fuel = fetchLoop (fun a _ => oracle a t) t R attempt fuel := by
  intro fuel
  induction fuel with
  | zero => intro attempt; rfl
  | succ f ih =>
    intro attempt
    simp only [fetchLoop]
    rcases ho : oracle attempt t with e0 | v
    · rw [ih (attempt + 1)]
    · rfl

/-! Branch characterizations of the messageCreate handler. -/

theorem messageCreate_untracked (cfg : Config) (p : Platform) (clientUserId : String)
    (now : Nat) (m : Msg) (st : SysState)
    (h : (m.authorId == clientUserId) = true ∨ m.hasGuild = false) :
    messageCreate cfg p clientUserId now m st =
      { store := st.store, cooldowns := st.cooldowns, thrown := false,
        trace := emptyTrace } := by
  rcases h with h | h
  · simp [messageCreate, h]
  · simp [messageCreate, h]

theorem messageCreate_norec (cfg : Config) (p : Platform) (clientUserId : String)
    (now : Nat) (m : Msg) (st : SysState)
    (hA : (m.authorId == clientUserId) = false) (hG : m.hasGuild = true)
    (hF : findOne st.store m.channelId = none) :
    messageCreate cfg p clientUserId now m st =
      { store := st.store, cooldowns := st.cooldowns, thrown := false,
        trace := emptyTrace } := by
  simp [messageCreate, hA, hG, hF]

theorem messageCreate_skip (cfg : Config) (p : Platform) (clientUserId : String)
    (now : Nat) (m : Msg) (st : SysState) (rec : StickyRecord)
    (hA : (m.authorId == clientUserId) = false) (hG : m.hasGuild = true)
    (hF : findOne st.store m.channelId = some rec)
    (hE : eligibleAt st.cooldowns m.channelId now = false) :
    messageCreate cfg p clientUserId now m st =
      { store := incMsgCount st.store m.channelId, cooldowns := st.cooldowns,
        thrown := false,
        trace := { counted := true, deleteCalls := [], webhookSendCalls := 0,
                   channelSendCalls := 0, dispatches := 0 } } := by
  simp [messageCreate, hA, hG, hF, hE]

theorem messageCreate_below (cfg : Config) (p : Platform) (clientUserId : String)
    (now : Nat) (m : Msg) (st : SysState) (rec : StickyRecord)
    (hA : (m.authorId == clientUserId) = false) (hG : m.hasGuild = true)
    (hF : findOne st.store m.channelId = some rec)
    (hE : eligibleAt st.cooldowns m.channelId now = true)
    (hLt : rec.msgCount < cfg.MaxMessages) :
    messageCreate cfg p clientUserId now m st =
      { store := incMsgCount st.store m.channelId,
        cooldowns := cdSet st.cooldowns m.channelId (now + 1 * 1000),
        thrown := false,
        trace := { counted := true, deleteCalls := [], webhookSendCalls := 0,
                   channelSendCalls := 0, dispatches := 0 } } := by
  have hnle : ¬ cfg.MaxMessages ≤ rec.msgCount := Nat.not_le.mpr hLt
  simp [messageCreate, hA, hG, hF, hE, hnle]

theorem messageCreate_repost_ok (cfg : Config) (p : Platform) (clientUserId : String)
    (now : Nat) (m : Msg) (st : SysState) (rec : StickyRecord) (aid : String)
    (hA : (m.authorId == clientUserId) = false) (hG : m.hasGuild = true)
    (hF : findOne st.store m.channelId = some rec)
    (hE : eligibleAt st.cooldowns m.channelId now = true)
    (hGe : cfg.MaxMessages ≤ rec.msgCount)
    (hD : (dispatchStep cfg p rec).1 = some aid) :
    messageCreate cfg p clientUserId now m st =
      { store := updateRecord (incMsgCount st.store m.channelId) m.channelId
          (fun s => { s with msgCount := 0, messageId := some aid }),
        cooldowns := cdSet st.cooldowns m.channelId (now + 1 * 1000),
        thrown := false,
        trace := { counted := true, deleteCalls := deleteOldStep cfg p rec,
                   webhookSendCalls := (dispatchStep cfg p rec).2.1,
                   channelSendCalls := (dispatchStep cfg p rec).2.2,
                   dispatches := 1 } } := by
  simp [messageCreate, hA, hG, hF, hE, hGe, hD]

theorem messageCreate_repost_fail (cfg : Config) (p : Platform) (clientUserId : String)
    (now : Nat) (m : Msg) (st : SysState) (rec : StickyRecord)
    (hA : (m.authorId == clientUserId) = false) (hG : m.hasGuild = true)
    (hF : findOne st.store m.channelId = some rec)
    (hE : eligibleAt st.cooldowns m.channelId now = true)
    (hGe : cfg.MaxMessages ≤ rec.msgCount)
    (hD : (dispatchStep cfg p rec).1 = none) :
    messageCreate cfg p clientUserId now m st =
      { store := incMsgCount st.store m.channelId,
        cooldowns := cdSet st.cooldowns m.channelId (now + 1 * 1000),
        thrown := true,
        trace := { counted := true, deleteCalls := deleteOldStep cfg p rec,
                   webhookSendCalls := (dispatchStep cfg p rec).2.1,
                   channelSendCalls := (dispatchStep cfg p rec).2.2,
                   dispatches := 1 } } := by
  simp [messageCreate, hA, hG, hF, hE, hGe, hD]

/-! Concrete scenario instances used by the claim theorems and witnesses. -/

/-- Configuration with `MaxMessages = 5`, plain-text mode. -/
def cfgA : Config :=
  { Enabled := true, MaxMessages := 5, EnableEmbeds := false,
    StickiedMessageTitle := "Sticky", WebhooksName := none,
    WebhooksAvatarURL := none, WebhooksEnabledByDefault := false }

/-- Platform where the old artifact is found, webhook sends reject and
direct channel sends succeed with artifact id `new1`. -/
def platA : Platform :=
  { fetchOldFound := fun _ => true, recentMessages := [],
    webhookSend := none, channelSend := some "new1" }

/-- A direct-post record for channel `c` with `msgCount = 0` and a live
artifact `old`. -/
def recA : StickyRecord :=
  { channelId := "c", message := "hello", msgCount := 0, messageId := some "old",
    useWebhook := false, webhookId := none, webhookToken := none,
    webhookName := none, webhookAvatarURL := none }

/-- The i-th tracked inbound user message on channel `c`, one second apart
so the debounce gate is always open. -/
def msgAt (i : Nat) : Nat × Msg :=
  (1000 * i, { id := toString i, authorId := "u", channelId := "c",
               hasGuild := true, content := "hi", embedDescriptions := [] })

/-- Initial state: just the record for channel `c`, empty cooldown map. -/
def st0 : SysState := { store := [recA], cooldowns := [] }

/-- The record of channel `c` once five tracked messages have been
counted. -/
def rec5 : StickyRecord := { recA with msgCount := 5 }

/-- State after five tracked messages: count 5, cooldown set at t=5000. -/
def st5 : SysState := { store := [rec5], cooldowns := [("c", 5000)] }

/-- The sixth tracked inbound message. -/
def msg5 : Msg := (msgAt 5).2

/-- C1, counterexample: with `maxMessages = 5` and a record starting at
`msgCount = 0`, the claim says the fifth tracked message causes exactly one
dispatch call and resets `msgCount` to 0.  Running the handler over five
tracked messages (each outside the debounce window) makes zero dispatch
calls and leaves `msgCount = 5`, because the threshold decision at line 65
reads the in-memory record fetched *before* the `$inc`, so the fifth
message compares 4 >= 5.  The post-increment count seen in the store is 5
>= 5 on the fifth message, yet no repost happens, refuting the claimed
iff as well. -/
theorem c1_counterexample :
    (runMessages cfgA platA "bot" ((List.range 5).map msgAt) st0).2.1 = 0 ∧
    ¬ (runMessages cfgA platA "bot" ((List.range 5).map msgAt) st0).2.1 = 1 ∧
    (findOne (runMessages cfgA platA "bot" ((List.range 5).map msgAt) st0).1.store "c").map
      StickyRecord.msgCount = some 5 := by decide

/-- C1, amended: a repost is performed iff the record's `msgCount` as read
*before* the increment for the triggering message (the stale in-memory
value the reconciler actually sees) is `>= maxMessages`; with `maxMessages
= 5` and a record starting at `msgCount = 0`, the first five tracked
messages cause no dispatch and the *sixth* causes exactly one dispatch
call, resets `msgCount` to 0, and passes the previous `artifactId` to
exactly one delete call. -/
theorem c1_amended (cfg : Config) (p : Platform) (clientUserId : String)
    (now : Nat) (m : Msg) (st : SysState) (rec : StickyRecord)
    (hA : m.authorId ≠ clientUserId) (hG : m.hasGuild = true)
    (hF : findOne st.store m.channelId = some rec)
    (hE : eligibleAt st.cooldowns m.channelId now = true) :
    ((messageCreate cfg p clientUserId now m st).trace.dispatches = 1 ↔
      cfg.MaxMessages ≤ rec.msgCount) ∧
    (rec.msgCount < cfg.MaxMessages →
      (messageCreate cfg p clientUserId now m st).trace.deleteCalls = [] ∧
      (messageCreate cfg p clientUserId now m st).trace.webhookSendCalls = 0 ∧
      (messageCreate cfg p clientUserId now m st).trace.channelSendCalls = 0) ∧
    (∀ mid, cfg.MaxMessages ≤ rec.msgCount → rec.messageId = some mid →
      p.fetchOldFound mid = true →
      (messageCreate cfg p clientUserId now m st).trace.deleteCalls = [mid]) ∧
    (∀ aid, cfg.MaxMessages ≤ rec.msgCount → (dispatchStep cfg p rec).1 = some aid →
      findOne (messageCreate cfg p clientUserId now m st).store m.channelId =
        some { rec with msgCount := 0, messageId := some aid }) ∧
    ((runMessages cfgA platA "bot" ((List.range 6).map msgAt) st0).2.1 = 1 ∧
     (runMessages cfgA platA "bot" ((List.range 6).map msgAt) st0).2.2 = ["old"] ∧
     (findOne (runMessages cfgA platA "bot" ((List.range 6).map msgAt) st0).1.store "c").map
       StickyRecord.msgCount = some 0) := by
  have hAb : (m.authorId == clientUserId) = false := beq_eq_false_iff_ne.mpr hA
  refine ⟨?_, ?_, ?_, ?_, by decide⟩
  · rcases Nat.lt_or_ge rec.msgCount cfg.MaxMessages with hLt | hGe
    · rw [messageCreate_below cfg p clientUserId now m st rec hAb hG hF hE hLt]
      simp [Nat.not_le.mpr hLt]
    · rcases hD : (dispatchStep cfg p rec).1 with _ | aid
      · rw [messageCreate_repost_fail cfg p clientUserId now m st rec hAb hG hF hE hGe hD]
        simp [hGe]
      · rw [messageCreate_repost_ok cfg p clientUserId now m st rec aid hAb hG hF hE hGe hD]
        simp [hGe]
  · intro hLt
    rw [messageCreate_below cfg p clientUserId now m st rec hAb hG hF hE hLt]
    exact ⟨rfl, rfl, rfl⟩
  · intro mid hGe hmid hff
    have hdel : deleteOldStep cfg p rec = [mid] := by
      simp [deleteOldStep, hmid, hff]
    rcases hD : (dispatchStep cfg p rec).1 with _ | aid
    · rw [messageCreate_repost_fail cfg p clientUserId now m st rec hAb hG hF hE hGe hD]
      exact hdel
    · rw [messageCreate_repost_ok cfg p clientUserId now m st rec aid hAb hG hF hE hGe hD]
      exact hdel
  · intro aid hGe hD
    rw [messageCreate_repost_ok cfg p clientUserId now m st rec aid hAb hG hF hE hGe hD]
    dsimp only
    rw [findOne_updateRecord (incMsgCount st.store m.channelId) m.channelId
      (fun s => { s with msgCount := 0, messageId := some aid }) (fun _ => rfl),
      findOne_incMsgCount, hF]
    rfl

/-- Witness for `c1_amended`: the sixth tracked message of the scenario
(record at count 5, threshold 5, debounce open) satisfies every
hypothesis, and the conclusion holds there. -/
theorem c1_witness :
    (msg5.authorId ≠ "bot" ∧ msg5.hasGuild = true ∧
     findOne st5.store msg5.channelId = some rec5 ∧
     eligibleAt st5.cooldowns msg5.channelId 5000 = true) ∧
    (((messageCreate cfgA platA "bot" 5000 msg5 st5).trace.dispatches = 1 ↔
       cfgA.MaxMessages ≤ rec5.msgCount) ∧
     (rec5.msgCount < cfgA.MaxMessages →
       (messageCreate cfgA platA "bot" 5000 msg5 st5).trace.deleteCalls = [] ∧
       (messageCreate cfgA platA "bot" 5000 msg5 st5).trace.webhookSendCalls = 0 ∧
       (messageCreate cfgA platA "bot" 5000 msg5 st5).trace.channelSendCalls = 0) ∧
     (∀ mid, cfgA.MaxMessages ≤ rec5.msgCount → rec5.messageId = some mid →
       platA.fetchOldFound mid = true →
       (messageCreate cfgA platA "bot" 5000 msg5 st5).trace.deleteCalls = [mid]) ∧
     (∀ aid, cfgA.MaxMessages ≤ rec5.msgCount → (dispatchStep cfgA platA rec5).1 = some aid →
       findOne (messageCreate cfgA platA "bot" 5000 msg5 st5).store msg5.channelId =
         some { rec5 with msgCount := 0, messageId := some aid }) ∧
     ((runMessages cfgA platA "bot" ((List.range 6).map msgAt) st0).2.1 = 1 ∧
      (runMessages cfgA platA "bot" ((List.range 6).map msgAt) st0).2.2 = ["old"] ∧
      (findOne (runMessages cfgA platA "bot" ((List.range 6).map msgAt) st0).1.store "c").map
        StickyRecord.msgCount = some 0)) :=
  ⟨⟨by decide, by decide, by decide, by decide⟩,
   c1_amended cfgA platA "bot" 5000 msg5 st5 rec5
     (by decide) (by decide) (by decide) (by decide)⟩

/-- A webhook-mode record at the threshold, with stored identity. -/
def recW : StickyRecord :=
  { channelId := "c", message := "hello", msgCount := 5, messageId := some "old",
    useWebhook := true, webhookId := some "wh", webhookToken := some "tok",
    webhookName := some "Sticky", webhookAvatarURL := none }

/-- State holding just the webhook record, empty cooldown map. -/
def stW : SysState := { store := [recW], cooldowns := [] }

/-- Platform where both the webhook send and the direct channel send
reject. -/
def platFail : Platform :=
  { fetchOldFound := fun _ => true, recentMessages := [],
    webhookSend := none, channelSend := none }

/-- State holding the direct-post record at the threshold, empty cooldown
map. -/
def stF : SysState := { store := [rec5], cooldowns := [] }

/-- C2: with `useWebhook = true` and a stored webhook id and token,
dispatch makes exactly one webhook-send call first; when the webhook send
rejects and the direct post succeeds with artifact `aid`, the dispatch
result is `aid`, exactly one channel send is made, no error escapes the
handler, and `aid` is persisted as the record's artifact id; the dispatch
result is missing (DispatchFailed escaping the handler) iff both the
webhook send and the direct send reject. -/
theorem c2_webhook_fallback (cfg : Config) (p : Platform) (rec : StickyRecord)
    (hW : rec.useWebhook = true) (hId : rec.webhookId.isSome = true)
    (hTok : rec.webhookToken.isSome = true) :
    (dispatchStep cfg p rec).2.1 = 1 ∧
    (∀ aid, p.webhookSend = none → p.channelSend = some aid →
      (dispatchStep cfg p rec).1 = some aid ∧ (dispatchStep cfg p rec).2.2 = 1) ∧
    ((dispatchStep cfg p rec).1 = none ↔ p.webhookSend = none ∧ p.channelSend = none) ∧
    (∀ (clientUserId : String) (now : Nat) (m : Msg) (st : SysState) (aid : String),
      m.authorId ≠ clientUserId → m.hasGuild = true →
      findOne st.store m.channelId = some rec →
      eligibleAt st.cooldowns m.channelId now = true →
      cfg.MaxMessages ≤ rec.msgCount →
      p.webhookSend = none → p.channelSend = some aid →
      (messageCreate cfg p clientUserId now m st).thrown = false ∧
      findOne (messageCreate cfg p clientUserId now m st).store m.channelId =
        some { rec with msgCount := 0, messageId := some aid }) := by
  have hc : (rec.useWebhook && rec.webhookId.isSome && rec.webhookToken.isSome) = true := by
    simp [hW, hId, hTok]
  refine ⟨?_, ?_, ?_, ?_⟩
  · rcases hws : p.webhookSend with _ | a
    · rcases hcs : p.channelSend with _ | b <;> simp [dispatchStep, hc, hws, hcs]
    · simp [dispatchStep, hc, hws]
  · intro aid hws hcs
    simp [dispatchStep, hc, hws, hcs]
  · constructor
    · intro h
      rcases hws : p.webhookSend with _ | a
      · rcases hcs : p.channelSend with _ | b
        · exact ⟨rfl, rfl⟩
        · simp [dispatchStep, hc, hws, hcs] at h
      · simp [dispatchStep, hc, hws] at h
    · rintro ⟨hws, hcs⟩
      simp [dispatchStep, hc, hws, hcs]
  · intro clientUserId now m st aid hA hG hF hE hGe hws hcs
    have hAb : (m.authorId == clientUserId) = false := beq_eq_false_iff_ne.mpr hA
    have hD : (dispatchStep cfg p rec).1 = some aid := by
      simp [dispatchStep, hc, hws, hcs]
    rw [messageCreate_repost_ok cfg p clientUserId now m st rec aid hAb hG hF hE hGe hD]
    refine ⟨rfl, ?_⟩
    dsimp only
    rw [findOne_updateRecord (incMsgCount st.store m.channelId) m.channelId
      (fun s => { s with msgCount := 0, messageId := some aid }) (fun _ => rfl),
      findOne_incMsgCount, hF]
    rfl

/-- Witness for `c2_webhook_fallback`: the webhook record `recW` with the
rejecting-webhook platform `platA`. -/
theorem c2_witness :
    (recW.useWebhook = true ∧ recW.webhookId.isSome = true ∧
     recW.webhookToken.isSome = true) ∧
    ((dispatchStep cfgA platA recW).2.1 = 1 ∧
     (∀ aid, platA.webhookSend = none → platA.channelSend = some aid →
       (dispatchStep cfgA platA recW).1 = some aid ∧ (dispatchStep cfgA platA recW).2.2 = 1) ∧
     ((dispatchStep cfgA platA recW).1 = none ↔
       platA.webhookSend = none ∧ platA.channelSend = none) ∧
     (∀ (clientUserId : String) (now : Nat) (m : Msg) (st : SysState) (aid : String),
       m.authorId ≠ clientUserId → m.hasGuild = true →
       findOne st.store m.channelId = some recW →
       eligibleAt st.cooldowns m.channelId now = true →
       cfgA.MaxMessages ≤ recW.msgCount →
       platA.webhookSend = none → platA.channelSend = some aid →
       (messageCreate cfgA platA clientUserId now m st).thrown = false ∧
       findOne (messageCreate cfgA platA clientUserId now m st).store m.channelId =
         some { recW with msgCount := 0, messageId := some aid })) :=
  ⟨⟨by decide, by decide, by decide⟩,
   c2_webhook_fallback cfgA platA recW (by decide) (by decide) (by decide)⟩

/-- C3: when the dispatch of a reconciliation attempt fails on every
attempted path, the error escapes the handler, and the record afterwards is
exactly the tracker-incremented record — `msgCount` not reset, `messageId`
(the artifact id) unchanged — so the next qualifying message retries the
decision; moreover the outcome state is independent of whether fetching
the previous artifact for deletion succeeded, and the repost block still
ran exactly once (deletion failures are swallowed, never aborting the
repost). -/
theorem c3_dispatch_failure_state (cfg : Config) (p : Platform) (clientUserId : String)
    (now : Nat) (m : Msg) (st : SysState) (rec : StickyRecord)
    (hA : m.authorId ≠ clientUserId) (hG : m.hasGuild = true)
    (hF : findOne st.store m.channelId = some rec)
    (hE : eligibleAt st.cooldowns m.channelId now = true)
    (hGe : cfg.MaxMessages ≤ rec.msgCount)
    (hD : (dispatchStep cfg p rec).1 = none) :
    (messageCreate cfg p clientUserId now m st).thrown = true ∧
    findOne (messageCreate cfg p clientUserId now m st).store m.channelId =
      some { rec with msgCount := rec.msgCount + 1 } ∧
    (messageCreate cfg p clientUserId now m st).trace.dispatches = 1 ∧
    (∀ g, (messageCreate cfg { p with fetchOldFound := g } clientUserId now m st).store =
        (messageCreate cfg p clientUserId now m st).store ∧
      (messageCreate cfg { p with fetchOldFound := g } clientUserId now m st).thrown =
        (messageCreate cfg p clientUserId now m st).thrown ∧
      (messageCreate cfg { p with fetchOldFound := g } clientUserId now m st).trace.dispatches =
        (messageCreate cfg p clientUserId now m st).trace.dispatches) := by
  have hAb : (m.authorId == clientUserId) = false := beq_eq_false_iff_ne.mpr hA
  have hmain := messageCreate_repost_fail cfg p clientUserId now m st rec hAb hG hF hE hGe hD
  refine ⟨by rw [hmain], ?_, by rw [hmain], ?_⟩
  · rw [hmain]
    dsimp only
    rw [findOne_incMsgCount, hF]
    rfl
  · intro g
    have hD2 : (dispatchStep cfg { p with fetchOldFound := g } rec).1 = none := hD
    have halt := messageCreate_repost_fail cfg { p with fetchOldFound := g }
      clientUserId now m st rec hAb hG hF hE hGe hD2
    rw [hmain, halt]
    exact ⟨rfl, rfl, rfl⟩

/-- Witness for `c3_dispatch_failure_state`: the threshold record `rec5`
with a platform where both send paths reject. -/
theorem c3_witness :
    (msg5.authorId ≠ "bot" ∧ msg5.hasGuild = true ∧
     findOne stF.store msg5.channelId = some rec5 ∧
     eligibleAt stF.cooldowns msg5.channelId 0 = true ∧
     cfgA.MaxMessages ≤ rec5.msgCount ∧
     (dispatchStep cfgA platFail rec5).1 = none) ∧
    ((messageCreate cfgA platFail "bot" 0 msg5 stF).thrown = true ∧
     findOne (messageCreate cfgA platFail "bot" 0 msg5 stF).store msg5.channelId =
       some { rec5 with msgCount := rec5.msgCount + 1 } ∧
     (messageCreate cfgA platFail "bot" 0 msg5 stF).trace.dispatches = 1 ∧
     (∀ g, (messageCreate cfgA { platFail with fetchOldFound := g } "bot" 0 msg5 stF).store =
         (messageCreate cfgA platFail "bot" 0 msg5 stF).store ∧
       (messageCreate cfgA { platFail with fetchOldFound := g } "bot" 0 msg5 stF).thrown =
         (messageCreate cfgA platFail "bot" 0 msg5 stF).thrown ∧
       (messageCreate cfgA { platFail with fetchOldFound := g } "bot" 0 msg5 stF).trace.dispatches =
         (messageCreate cfgA platFail "bot" 0 msg5 stF).trace.dispatches)) :=
  ⟨⟨by decide, by decide, by decide, by decide, by decide, by decide⟩,
   c3_dispatch_failure_state cfgA platFail "bot" 0 msg5 stF rec5
     (by decide) (by decide) (by decide) (by decide) (by decide) (by decide)⟩

/-- C4: after the handler runs on a tracked message, the channel's
`msgCount` is 0 iff the reconciler successfully posted a new artifact
(repost block ran and no error escaped); otherwise it is exactly the old
count plus one — so between successful reposts the count strictly
increases by one per tracked inbound message; and no other operation
decrements it: the webhook sweep never changes `msgCount`, and a
successful `create` only appends a fresh record with `msgCount = 0`,
leaving existing records untouched. -/
theorem c4_reset_iff_posted (cfg : Config) (p : Platform) (clientUserId : String)
    (now : Nat) (m : Msg) (st : SysState) (rec : StickyRecord)
    (hA : m.authorId ≠ clientUserId) (hG : m.hasGuild = true)
    (hF : findOne st.store m.channelId = some rec) :
    (∀ r2, findOne (messageCreate cfg p clientUserId now m st).store m.channelId = some r2 →
      ((r2.msgCount = 0 ↔
        ((messageCreate cfg p clientUserId now m st).trace.dispatches = 1 ∧
         (messageCreate cfg p clientUserId now m st).thrown = false)) ∧
       (r2.msgCount = 0 ∨ r2.msgCount = rec.msgCount + 1))) ∧
    (∀ (chans : String → Option SweepChan) (r : StickyRecord),
      (sweepOne cfg chans r).1.msgCount = r.msgCount) ∧
    (∀ (store : List StickyRecord) (cid msgRaw : String) (wOpt : Option Bool)
       (ch : Except Unit (String × String)) (hs cs : Option String)
       (store2 : List StickyRecord),
      createExecute cfg store cid msgRaw wOpt ch hs cs = .ok store2 →
      ∃ newRec, store2 = store ++ [newRec] ∧ newRec.msgCount = 0) := by
  have hAb : (m.authorId == clientUserId) = false := beq_eq_false_iff_ne.mpr hA
  refine ⟨?_, ?_, ?_⟩
  · intro r2 hr2
    by_cases hE : eligibleAt st.cooldowns m.channelId now = true
    · rcases Nat.lt_or_ge rec.msgCount cfg.MaxMessages with hLt | hGe
      · rw [messageCreate_below cfg p clientUserId now m st rec hAb hG hF hE hLt] at hr2 ⊢
        dsimp only at hr2 ⊢
        rw [findOne_incMsgCount, hF] at hr2
        cases hr2
        simp
      · rcases hD : (dispatchStep cfg p rec).1 with _ | aid
        · rw [messageCreate_repost_fail cfg p clientUserId now m st rec hAb hG hF hE hGe hD]
            at hr2 ⊢
          dsimp only at hr2 ⊢
          rw [findOne_incMsgCount, hF] at hr2
          cases hr2
          simp
        · rw [messageCreate_repost_ok cfg p clientUserId now m st rec aid hAb hG hF hE hGe hD]
            at hr2 ⊢
          dsimp only at hr2 ⊢
          rw [findOne_updateRecord (incMsgCount st.store m.channelId) m.channelId
            (fun s => { s with msgCount := 0, messageId := some aid }) (fun _ => rfl),
            findOne_incMsgCount, hF] at hr2
          cases hr2
          simp
    · have hE' : eligibleAt st.cooldowns m.channelId now = false := by
        simpa using hE
      rw [messageCreate_skip cfg p clientUserId now m st rec hAb hG hF hE'] at hr2 ⊢
      dsimp only at hr2 ⊢
      rw [findOne_incMsgCount, hF] at hr2
      cases hr2
      simp
  · intro chans r
    rcases hw : r.useWebhook with _ | _
    · rw [sweepOne_not_webhook cfg chans r hw]
    · rcases hch : chans r.channelId with _ | ch
      · simp [sweepOne, hw, hch]
      · rcases hcr : ch.createHook with _ | idTok
        · simp only [sweepOne, hw, Bool.not_true, Bool.false_eq_true, if_false, hch, hcr]
          split <;> rfl
        · simp only [sweepOne, hw, Bool.not_true, Bool.false_eq_true, if_false, hch, hcr]
          split <;> rfl
  · intro store cid msgRaw wOpt ch hs cs store2 hok
    unfold createExecute at hok
    split at hok
    · cases hok
    · dsimp only at hok
      split at hok
      · rcases ch with e | idTok
        · cases hok
        · rcases hs with _ | sid
          · rcases cs with _ | sid2
            · cases hok
            · cases hok
              exact ⟨_, rfl, rfl⟩
          · cases hok
            exact ⟨_, rfl, rfl⟩
      · rcases cs with _ | sid
        · cases hok
        · cases hok
          exact ⟨_, rfl, rfl⟩

/-- Witness for `c4_reset_iff_posted`: the first tracked message of the
scenario, on the fresh record at count 0. -/
theorem c4_witness :
    ((msgAt 0).2.authorId ≠ "bot" ∧ (msgAt 0).2.hasGuild = true ∧
     findOne st0.store (msgAt 0).2.channelId = some recA) ∧
    ((∀ r2, findOne (messageCreate cfgA platA "bot" 0 (msgAt 0).2 st0).store
        (msgAt 0).2.channelId = some r2 →
      ((r2.msgCount = 0 ↔
        ((messageCreate cfgA platA "bot" 0 (msgAt 0).2 st0).trace.dispatches = 1 ∧
         (messageCreate cfgA platA "bot" 0 (msgAt 0).2 st0).thrown = false)) ∧
       (r2.msgCount = 0 ∨ r2.msgCount = recA.msgCount + 1))) ∧
    (∀ (chans : String → Option SweepChan) (r : StickyRecord),
      (sweepOne cfgA chans r).1.msgCount = r.msgCount) ∧
    (∀ (store : List StickyRecord) (cid msgRaw : String) (wOpt : Option Bool)
       (ch : Except Unit (String × String)) (hs cs : Option String)
       (store2 : List StickyRecord),
      createExecute cfgA store cid msgRaw wOpt ch hs cs = .ok store2 →
      ∃ newRec, store2 = store ++ [newRec] ∧ newRec.msgCount = 0)) :=
  ⟨⟨by decide, by decide, by decide⟩,
   c4_reset_iff_posted cfgA platA "bot" 0 (msgAt 0).2 st0 recA
     (by decide) (by decide) (by decide)⟩

/-- C5: on every tracked inbound message with a record present, the
`$inc` of `msgCount` is persisted (it happens before the debounce check,
so it persists even when reconciliation is skipped); when the current time
is before the recorded next-eligible time the reconciliation is skipped —
the store holds exactly the incremented records, the cooldown map is
untouched, nothing is dispatched; otherwise the channel's next-eligible
time is set to now + 1000 ms and the threshold decision runs. -/
theorem c5_debounce (cfg : Config) (p : Platform) (clientUserId : String)
    (now : Nat) (m : Msg) (st : SysState) (rec : StickyRecord)
    (hA : m.authorId ≠ clientUserId) (hG : m.hasGuild = true)
    (hF : findOne st.store m.channelId = some rec) :
    (messageCreate cfg p clientUserId now m st).trace.counted = true ∧
    (eligibleAt st.cooldowns m.channelId now = false →
      (messageCreate cfg p clientUserId now m st).store = incMsgCount st.store m.channelId ∧
      (messageCreate cfg p clientUserId now m st).cooldowns = st.cooldowns ∧
      (messageCreate cfg p clientUserId now m st).trace.dispatches = 0 ∧
      (messageCreate cfg p clientUserId now m st).thrown = false) ∧
    (eligibleAt st.cooldowns m.channelId now = true →
      cdGet (messageCreate cfg p clientUserId now m st).cooldowns m.channelId =
        some (now + 1 * 1000) ∧
      (messageCreate cfg p clientUserId now m st).trace.dispatches =
        (if cfg.MaxMessages ≤ rec.msgCount then 1 else 0)) ∧
    (∀ t, cdGet st.cooldowns m.channelId = some t → now < t →
      eligibleAt st.cooldowns m.channelId now = false) := by
  have hAb : (m.authorId == clientUserId) = false := beq_eq_false_iff_ne.mpr hA
  refine ⟨?_, ?_, ?_, ?_⟩
  · by_cases hE : eligibleAt st.cooldowns m.channelId now = true
    · rcases Nat.lt_or_ge rec.msgCount cfg.MaxMessages with hLt | hGe
      · rw [messageCreate_below cfg p clientUserId now m st rec hAb hG hF hE hLt]
      · rcases hD : (dispatchStep cfg p rec).1 with _ | aid
        · rw [messageCreate_repost_fail cfg p clientUserId now m st rec hAb hG hF hE hGe hD]
        · rw [messageCreate_repost_ok cfg p clientUserId now m st rec aid hAb hG hF hE hGe hD]
    · have hE' : eligibleAt st.cooldowns m.channelId now = false := by simpa using hE
      rw [messageCreate_skip cfg p clientUserId now m st rec hAb hG hF hE']
  · intro hE'
    rw [messageCreate_skip cfg p clientUserId now m st rec hAb hG hF hE']
    exact ⟨rfl, rfl, rfl, rfl⟩
  · intro hE
    rcases Nat.lt_or_ge rec.msgCount cfg.MaxMessages with hLt | hGe
    · rw [messageCreate_below cfg p clientUserId now m st rec hAb hG hF hE hLt]
      refine ⟨cdGet_cdSet _ _ _, ?_⟩
      rw [if_neg (Nat.not_le.mpr hLt)]
    · rcases hD : (dispatchStep cfg p rec).1 with _ | aid
      · rw [messageCreate_repost_fail cfg p clientUserId now m st rec hAb hG hF hE hGe hD]
        refine ⟨cdGet_cdSet _ _ _, ?_⟩
        rw [if_pos hGe]
      · rw [messageCreate_repost_ok cfg p clientUserId now m st rec aid hAb hG hF hE hGe hD]
        refine ⟨cdGet_cdSet _ _ _, ?_⟩
        rw [if_pos hGe]
  · intro t ht hlt
    simp only [eligibleAt, ht]
    simpa using Nat.not_le.mpr hlt

/-- Witness for `c5_debounce`: the first tracked message of the scenario
at time 0 with an empty cooldown map. -/
theorem c5_witness :
    ((msgAt 0).2.authorId ≠ "bot" ∧ (msgAt 0).2.hasGuild = true ∧
     findOne st0.store (msgAt 0).2.channelId = some recA) ∧
    ((messageCreate cfgA platA "bot" 0 (msgAt 0).2 st0).trace.counted = true ∧
     (eligibleAt st0.cooldowns (msgAt 0).2.channelId 0 = false →
       (messageCreate cfgA platA "bot" 0 (msgAt 0).2 st0).store =
         incMsgCount st0.store (msgAt 0).2.channelId ∧
       (messageCreate cfgA platA "bot" 0 (msgAt 0).2 st0).cooldowns = st0.cooldowns ∧
       (messageCreate cfgA platA "bot" 0 (msgAt 0).2 st0).trace.dispatches = 0 ∧
       (messageCreate cfgA platA "bot" 0 (msgAt 0).2 st0).thrown = false) ∧
     (eligibleAt st0.cooldowns (msgAt 0).2.channelId 0 = true →
       cdGet (messageCreate cfgA platA "bot" 0 (msgAt 0).2 st0).cooldowns
         (msgAt 0).2.channelId = some (0 + 1 * 1000) ∧
       (messageCreate cfgA platA "bot" 0 (msgAt 0).2 st0).trace.dispatches =
         (if cfgA.MaxMessages ≤ recA.msgCount then 1 else 0)) ∧
     (∀ t, cdGet st0.cooldowns (msgAt 0).2.channelId = some t → 0 < t →
       eligibleAt st0.cooldowns (msgAt 0).2.channelId 0 = false)) :=
  ⟨⟨by decide, by decide, by decide⟩,
   c5_debounce cfgA platA "bot" 0 (msgAt 0).2 st0 recA
     (by decide) (by decide) (by decide)⟩

/-- A healthy sweep channel for `recW`: its webhook id is listed. -/
def chW : SweepChan := { fetchHooks := .ok ["wh"], createHook := .ok ("nw", "nt") }

/-- Channel lookup for the sweep scenario: only channel `c` is cached. -/
def chansW : String → Option SweepChan := fun cid => if cid == "c" then some chW else none

/-- C6: for a record with `useWebhook = true`, stored id and token, whose
id appears in the channel's current webhook list, one sweep iteration
creates no webhook and returns the record unchanged; consequently, over a
store whose webhook records are all healthy, the sweep is the identity
with zero creations, and running it twice equals running it once. -/
theorem c6_sweep_idempotent (cfg : Config) (chans : String → Option SweepChan)
    (rec : StickyRecord) (wid wtok : String) (ch : SweepChan) (hooks : List String)
    (hW : rec.useWebhook = true) (hId : rec.webhookId = some wid)
    (hTok : rec.webhookToken = some wtok)
    (hCh : chans rec.channelId = some ch) (hHk : ch.fetchHooks = .ok hooks)
    (hMem : hooks.contains wid = true) :
    sweepOne cfg chans rec = (rec, 0) ∧
    (∀ store : List StickyRecord,
      (∀ r ∈ store, r.useWebhook = true → Healthy chans r) →
      ensureWebhooks cfg chans store = (store, 0) ∧
      ensureWebhooks cfg chans (ensureWebhooks cfg chans store).1 =
        ensureWebhooks cfg chans store) := by
  have hH : Healthy chans rec := ⟨wid, wtok, ch, hooks, hId, hTok, hCh, hHk, hMem⟩
  refine ⟨sweepOne_healthy cfg chans rec hW hH, ?_⟩
  intro store hstore
  have h1 := ensureWebhooks_healthy cfg chans store hstore
  refine ⟨h1, ?_⟩
  rw [h1]
  exact h1

/-- Witness for `c6_sweep_idempotent`: the webhook record `recW` whose id
`wh` is listed by `chansW`. -/
theorem c6_witness :
    (recW.useWebhook = true ∧ recW.webhookId = some "wh" ∧
     recW.webhookToken = some "tok" ∧ chansW recW.channelId = some chW ∧
     chW.fetchHooks = .ok ["wh"] ∧ (["wh"] : List String).contains "wh" = true) ∧
    (sweepOne cfgA chansW recW = (recW, 0) ∧
     (∀ store : List StickyRecord,
       (∀ r ∈ store, r.useWebhook = true → Healthy chansW r) →
       ensureWebhooks cfgA chansW store = (store, 0) ∧
       ensureWebhooks cfgA chansW (ensureWebhooks cfgA chansW store).1 =
         ensureWebhooks cfgA chansW store)) :=
  ⟨⟨by decide, by decide, by decide, by decide, by decide, by decide⟩,
   c6_sweep_idempotent cfgA chansW recW "wh" "tok" chW ["wh"]
     (by decide) (by decide) (by decide) (by decide) (by decide) (by decide)⟩

theorem counted_of_tracked (cfg : Config) (p : Platform) (clientUserId : String)
    (now : Nat) (m : Msg) (st : SysState) (rec : StickyRecord)
    (hAb : (m.authorId == clientUserId) = false) (hG : m.hasGuild = true)
    (hF : findOne st.store m.channelId = some rec) :
    (messageCreate cfg p clientUserId now m st).trace.counted = true := by
  by_cases hE : eligibleAt st.cooldowns m.channelId now = true
  · rcases Nat.lt_or_ge rec.msgCount cfg.MaxMessages with hLt | hGe
    · rw [messageCreate_below cfg p clientUserId now m st rec hAb hG hF hE hLt]
    · rcases hD : (dispatchStep cfg p rec).1 with _ | aid
      · rw [messageCreate_repost_fail cfg p clientUserId now m st rec hAb hG hF hE hGe hD]
      · rw [messageCreate_repost_ok cfg p clientUserId now m st rec aid hAb hG hF hE hGe hD]
  · have hE' : eligibleAt st.cooldowns m.channelId now = false := by simpa using hE
    rw [messageCreate_skip cfg p clientUserId now m st rec hAb hG hF hE']

/-- C7: the self-message filter of line 55 tests only whether the author
id equals the bot client's own user id, so a sticky artifact delivered
through a channel webhook — authored by the webhook identity `wid`, which
is a different user id from the bot's — is itself tracked: its arrival is
counted and increments the channel's `msgCount`; the very same message
with the bot as author is ignored entirely. -/
theorem c7_webhook_author_counted (cfg : Config) (p : Platform) (clientUserId : String)
    (now : Nat) (st : SysState) (rec : StickyRecord) (m : Msg) (wid : String)
    (hAuth : m.authorId = wid) (hNe : wid ≠ clientUserId) (hG : m.hasGuild = true)
    (hF : findOne st.store m.channelId = some rec) :
    (messageCreate cfg p clientUserId now m st).trace.counted = true ∧
    (rec.msgCount < cfg.MaxMessages →
      findOne (messageCreate cfg p clientUserId now m st).store m.channelId =
        some { rec with msgCount := rec.msgCount + 1 }) ∧
    (messageCreate cfg p clientUserId now { m with authorId := clientUserId } st).trace.counted
      = false ∧
    (messageCreate cfg p clientUserId now { m with authorId := clientUserId } st).store
      = st.store := by
  have hA : m.authorId ≠ clientUserId := by rw [hAuth]; exact hNe
  have hAb : (m.authorId == clientUserId) = false := beq_eq_false_iff_ne.mpr hA
  have hSelf : messageCreate cfg p clientUserId now { m with authorId := clientUserId } st =
      { store := st.store, cooldowns := st.cooldowns, thrown := false,
        trace := emptyTrace } :=
    messageCreate_untracked cfg p clientUserId now _ st (Or.inl (by simp))
  refine ⟨counted_of_tracked cfg p clientUserId now m st rec hAb hG hF, ?_,
    by rw [hSelf]; rfl, by rw [hSelf]⟩
  intro hLt
  by_cases hE : eligibleAt st.cooldowns m.channelId now = true
  · rw [messageCreate_below cfg p clientUserId now m st rec hAb hG hF hE hLt]
    dsimp only
    rw [findOne_incMsgCount, hF]
    rfl
  · have hE' : eligibleAt st.cooldowns m.channelId now = false := by simpa using hE
    rw [messageCreate_skip cfg p clientUserId now m st rec hAb hG hF hE']
    dsimp only
    rw [findOne_incMsgCount, hF]
    rfl

/-- A message authored by the webhook identity `wh` on channel `c`: the
reposted sticky artifact itself, as it arrives back through the gateway. -/
def msgFromHook : Msg :=
  { id := "a1", authorId := "wh", channelId := "c", hasGuild := true,
    content := "Sticky\n\nhello", embedDescriptions := [] }

/-- Witness for `c7_webhook_author_counted`: the webhook-authored sticky
artifact on the fresh record. -/
theorem c7_witness :
    (msgFromHook.authorId = "wh" ∧ ("wh" : String) ≠ "bot" ∧
     msgFromHook.hasGuild = true ∧
     findOne st0.store msgFromHook.channelId = some recA) ∧
    ((messageCreate cfgA platA "bot" 0 msgFromHook st0).trace.counted = true ∧
     (recA.msgCount < cfgA.MaxMessages →
       findOne (messageCreate cfgA platA "bot" 0 msgFromHook st0).store msgFromHook.channelId =
         some { recA with msgCount := recA.msgCount + 1 }) ∧
     (messageCreate cfgA platA "bot" 0 { msgFromHook with authorId := "bot" } st0).trace.counted
       = false ∧
     (messageCreate cfgA platA "bot" 0 { msgFromHook with authorId := "bot" } st0).store
       = st0.store) :=
  ⟨⟨by decide, by decide, by decide, by decide⟩,
   c7_webhook_author_counted cfgA platA "bot" 0 st0 recA msgFromHook "wh"
     (by decide) (by decide) (by decide) (by decide)⟩

/-- C8: the `list` subcommand is not read-only — its resulting store keeps
exactly the records whose channel is in the client cache (every record
with an uncached channel is deleted as a side effect of listing), and the
rendered embed fields are exactly those of the cached records. -/
theorem c8_list_deletes_uncached (cache : String → Option ChannelInfo)
    (records : List StickyRecord)
    (hNd : (records.map StickyRecord.channelId).Nodup) :
    (listExecute cache records).1 =
      records.filter (fun r => (cache r.channelId).isSome) ∧
    (listExecute cache records).2 = records.filterMap
      (fun r => (cache r.channelId).map
        (fun ch => (ch.name, r.message, if r.useWebhook then "Yes" else "No"))) ∧
    (∀ r ∈ records, (cache r.channelId).isNone = true →
      r ∉ (listExecute cache records).1) := by
  have h1 := listLoop_fst cache records records hNd
  have h1' : (listExecute cache records).1 =
      records.filter (fun r => (cache r.channelId).isSome) := by
    rw [listExecute, h1]
    apply List.filter_congr
    intro r hr
    rcases hn : cache r.channelId with _ | ch
    · have hany : records.any
          (fun s => s.channelId == r.channelId && (cache s.channelId).isNone) = true :=
        List.any_eq_true.mpr ⟨r, hr, by simp [hn]⟩
      simp [hany, hn]
    · have hany : records.any
          (fun s => s.channelId == r.channelId && (cache s.channelId).isNone) = false := by
        rw [List.any_eq_false]
        intro s hs
        by_cases hsc : s.channelId = r.channelId
        · simp [hsc, hn]
        · simp [beq_eq_false_iff_ne.mpr hsc]
      simp [hany, hn]
  refine ⟨h1', listLoop_snd cache records records, ?_⟩
  intro r hr hnone hmem
  rw [h1'] at hmem
  have hsome := (List.mem_filter.mp hmem).2
  rw [Option.isNone_iff_eq_none.mp hnone] at hsome
  simp at hsome

/-- A record on channel `d`, which the list scenario's cache lacks. -/
def recB : StickyRecord := { recA with channelId := "d" }

/-- Cache for the list scenario: only channel `c` exists. -/
def cacheL : String → Option ChannelInfo :=
  fun cid => if cid == "c" then some { name := "general" } else none

/-- Witness for `c8_list_deletes_uncached`: listing `[recA, recB]` with
only channel `c` cached deletes `recB` from the store. -/
theorem c8_witness :
    (([recA, recB].map StickyRecord.channelId).Nodup) ∧
    ((listExecute cacheL [recA, recB]).1 =
       [recA, recB].filter (fun r => (cacheL r.channelId).isSome) ∧
     (listExecute cacheL [recA, recB]).2 = [recA, recB].filterMap
       (fun r => (cacheL r.channelId).map
         (fun ch => (ch.name, r.message, if r.useWebhook then "Yes" else "No"))) ∧
     (∀ r ∈ [recA, recB], (cacheL r.channelId).isNone = true →
       r ∉ (listExecute cacheL [recA, recB]).1)) :=
  ⟨by decide, c8_list_deletes_uncached cacheL [recA, recB] (by decide)⟩

/-- C9: `fetchWithRetry` makes at most `retries` attempts (at least one
when `retries >= 1`); it throws only when the final (`retries`-th) attempt
has failed; between consecutive failed attempts it waits `1000 * attempt`
milliseconds (a linearly increasing backoff: 1000, 2000, ...); every
individual request is given the configured abort timeout (the outcome
depends only on the oracle at that timeout); and the constructor defaults
are 10000 ms and 2 attempts. -/
theorem c9_fetch_retry (opts : VCOptions) (oracle : Nat → Nat → Except String String) :
    (fetchWithRetry opts oracle).2.1 ≤ opts.retries ∧
    (1 ≤ opts.retries → 1 ≤ (fetchWithRetry opts oracle).2.1) ∧
    (∀ e, (fetchWithRetry opts oracle).1 = .error e →
      (fetchWithRetry opts oracle).2.1 = opts.retries ∧
      ∃ msg, oracle opts.retries opts.timeout = .error msg) ∧
    (fetchWithRetry opts oracle).2.2 =
      (List.range ((fetchWithRetry opts oracle).2.1 - 1)).map (fun i => 1000 * (1 + i)) ∧
    fetchWithRetry opts oracle = fetchWithRetry opts (fun a _ => oracle a opts.timeout) ∧
    (mkOptions none none).timeout = 10000 ∧ (mkOptions none none).retries = 2 := by
  obtain ⟨h1, h2, h3, h4⟩ :=
    fetchLoop_spec oracle opts.timeout opts.retries opts.retries 1 (by omega)
  exact ⟨h1, h2, h3, h4,
    fetchLoop_timeout_only oracle opts.timeout opts.retries opts.retries 1, rfl, rfl⟩

/-- Witness for `c9_fetch_retry`: with default options and an
always-failing oracle, the conclusion holds, and concretely the call makes
exactly 2 attempts, waits 1000 ms once, and throws the final error. -/
theorem c9_witness :
    ((fetchWithRetry (mkOptions none none) (fun _ _ => .error "boom")).2.1 ≤
       (mkOptions none none).retries ∧
     (1 ≤ (mkOptions none none).retries →
       1 ≤ (fetchWithRetry (mkOptions none none) (fun _ _ => .error "boom")).2.1) ∧
     (∀ e, (fetchWithRetry (mkOptions none none) (fun _ _ => .error "boom")).1 = .error e →
       (fetchWithRetry (mkOptions none none) (fun _ _ => .error "boom")).2.1 =
         (mkOptions none none).retries ∧
       ∃ msg, (fun (_ : Nat) (_ : Nat) => (.error "boom" : Except String String))
         (mkOptions none none).retries (mkOptions none none).timeout = .error msg) ∧
     (fetchWithRetry (mkOptions none none) (fun _ _ => .error "boom")).2.2 =
       (List.range ((fetchWithRetry (mkOptions none none) (fun _ _ => .error "boom")).2.1 - 1)).map
         (fun i => 1000 * (1 + i)) ∧
     fetchWithRetry (mkOptions none none) (fun _ _ => .error "boom") =
       fetchWithRetry (mkOptions none none)
         (fun a _ => (fun (_ : Nat) (_ : Nat) => (.error "boom" : Except String String)) a
           (mkOptions none none).timeout) ∧
     (mkOptions none none).timeout = 10000 ∧ (mkOptions none none).retries = 2) ∧
    fetchWithRetry (mkOptions none none) (fun _ _ => .error "boom") =
      (.error "Failed after 2 attempts: boom", 2, [1000]) :=
  ⟨c9_fetch_retry (mkOptions none none) (fun _ _ => .error "boom"), by decide⟩

/-- C10: `checkForUpdates` is a total function of its collaborators'
outcomes — every result carries a `success` flag; whenever `success` is
false an error message is present and all three status flags are false;
whenever `success` is true exactly one of `isOutdated`, `isCurrent`,
`isNewer` is true, and the three flags are exactly the sign tests of
`compareVersions` between the current version and the returned `latest`
string (component-wise comparison with missing components read as 0). -/
theorem c10_check_result (cv : String) (legacy : Bool)
    (apiR legacyR : Except String FetchData) :
    ((checkForUpdates cv legacy apiR legacyR).success = false →
      (checkForUpdates cv legacy apiR legacyR).error.isSome = true ∧
      (checkForUpdates cv legacy apiR legacyR).isOutdated = false ∧
      (checkForUpdates cv legacy apiR legacyR).isCurrent = false ∧
      (checkForUpdates cv legacy apiR legacyR).isNewer = false) ∧
    ((checkForUpdates cv legacy apiR legacyR).success = true →
      (((checkForUpdates cv legacy apiR legacyR).isOutdated = true ∧
        (checkForUpdates cv legacy apiR legacyR).isCurrent = false ∧
        (checkForUpdates cv legacy apiR legacyR).isNewer = false) ∨
       ((checkForUpdates cv legacy apiR legacyR).isOutdated = false ∧
        (checkForUpdates cv legacy apiR legacyR).isCurrent = true ∧
        (checkForUpdates cv legacy apiR legacyR).isNewer = false) ∨
       ((checkForUpdates cv legacy apiR legacyR).isOutdated = false ∧
        (checkForUpdates cv legacy apiR legacyR).isCurrent = false ∧
        (checkForUpdates cv legacy apiR legacyR).isNewer = true)) ∧
      ∃ l, (checkForUpdates cv legacy apiR legacyR).latest = some l ∧
        (checkForUpdates cv legacy apiR legacyR).isOutdated =
          decide (compareVersions cv l < 0) ∧
        (checkForUpdates cv legacy apiR legacyR).isNewer =
          decide (0 < compareVersions cv l) ∧
        (checkForUpdates cv legacy apiR legacyR).isCurrent =
          decide (compareVersions cv l = 0)) := by
  have hbeq : ∀ x : Int, (x == 0) = decide (x = 0) := by
    intro x
    by_cases h : x = 0 <;> simp [h]
  rcases hd : (if legacy then legacyR else
      match apiR with
      | .ok d => .ok d
      | .error _ => legacyR) with e | data
  · have hr : checkForUpdates cv legacy apiR legacyR =
        { success := false, isOutdated := false, isCurrent := false, isNewer := false,
          current := cv, latest := none, error := some e } := by
      simp only [checkForUpdates]
      rw [hd]
    rw [hr]
    exact ⟨fun _ => ⟨rfl, rfl, rfl, rfl⟩, fun h => by cases h⟩
  · rcases hlv : data.latestVersion with _ | verField
    · have hr : checkForUpdates cv legacy apiR legacyR =
          { success := true, isOutdated := false, isCurrent := true, isNewer := false,
            current := cv, latest := some cv, error := none } := by
        simp only [checkForUpdates]
        rw [hd]
        simp only [hlv]
      rw [hr]
      refine ⟨fun h => (by cases h), fun _ =>
        ⟨Or.inr (Or.inl ⟨rfl, rfl, rfl⟩), ⟨cv, rfl, ?_, ?_, ?_⟩⟩⟩
      · simp [compareVersions_self]
      · simp [compareVersions_self]
      · simp [compareVersions_self]
    · rcases hv : verField with _ | latestStr
      · have hr : checkForUpdates cv legacy apiR legacyR =
            { success := false, isOutdated := false, isCurrent := false, isNewer := false,
              current := cv, latest := none,
              error := some "Cannot read properties of undefined" } := by
          simp only [checkForUpdates]
          rw [hd]
          simp only [hlv, hv]
        rw [hr]
        exact ⟨fun _ => ⟨rfl, rfl, rfl, rfl⟩, fun h => by cases h⟩
      · have hr : checkForUpdates cv legacy apiR legacyR =
            { success := true,
              isOutdated := decide (compareVersions cv latestStr < 0),
              isNewer := decide (0 < compareVersions cv latestStr),
              isCurrent := compareVersions cv latestStr == 0,
              current := cv, latest := some latestStr, error := none } := by
          simp only [checkForUpdates]
          rw [hd]
          simp only [hlv, hv]
        rw [hr]
        refine ⟨fun h => (by cases h), fun _ => ⟨?_, ⟨latestStr, rfl, rfl, rfl, hbeq _⟩⟩⟩
        rcases lt_trichotomy (compareVersions cv latestStr) 0 with h | h | h
        · exact Or.inl ⟨by simp [h], by simp [hbeq, ne_of_lt h], by simp [asymm h]⟩
        · exact Or.inr (Or.inl ⟨by simp [h], by simp [hbeq, h], by simp [h]⟩)
        · exact Or.inr (Or.inr ⟨by simp [asymm h], by simp [hbeq, ne_of_gt h], by simp [h]⟩)

/-- Witness for `c10_check_result`: an outdated 1.2.0 against a fetched
1.10.0 through the API path, with the concrete result spelled out. -/
theorem c10_witness :
    (((checkForUpdates "1.2.0" false (.ok { latestVersion := some (some "1.10.0") })
        (.error "x")).success = false →
      (checkForUpdates "1.2.0" false (.ok { latestVersion := some (some "1.10.0") })
        (.error "x")).error.isSome = true ∧
      (checkForUpdates "1.2.0" false (.ok { latestVersion := some (some "1.10.0") })
        (.error "x")).isOutdated = false ∧
      (checkForUpdates "1.2.0" false (.ok { latestVersion := some (some "1.10.0") })
        (.error "x")).isCurrent = false ∧
      (checkForUpdates "1.2.0" false (.ok { latestVersion := some (some "1.10.0") })
        (.error "x")).isNewer = false) ∧
    ((checkForUpdates "1.2.0" false (.ok { latestVersion := some (some "1.10.0") })
        (.error "x")).success = true →
      (((checkForUpdates "1.2.0" false (.ok { latestVersion := some (some "1.10.0") })
          (.error "x")).isOutdated = true ∧
        (checkForUpdates "1.2.0" false (.ok { latestVersion := some (some "1.10.0") })
          (.error "x")).isCurrent = false ∧
        (checkForUpdates "1.2.0" false (.ok { latestVersion := some (some "1.10.0") })
          (.error "x")).isNewer = false) ∨
       ((checkForUpdates "1.2.0" false (.ok { latestVersion := some (some "1.10.0") })
          (.error "x")).isOutdated = false ∧
        (checkForUpdates "1.2.0" false (.ok { latestVersion := some (some "1.10.0") })
          (.error "x")).isCurrent = true ∧
        (checkForUpdates "1.2.0" false (.ok { latestVersion := some (some "1.10.0") })
          (.error "x")).isNewer = false) ∨
       ((checkForUpdates "1.2.0" false (.ok { latestVersion := some (some "1.10.0") })
          (.error "x")).isOutdated = false ∧
        (checkForUpdates "1.2.0" false (.ok { latestVersion := some (some "1.10.0") })
          (.error "x")).isCurrent = false ∧
        (checkForUpdates "1.2.0" false (.ok { latestVersion := some (some "1.10.0") })
          (.error "x")).isNewer = true)) ∧
      ∃ l, (checkForUpdates "1.2.0" false (.ok { latestVersion := some (some "1.10.0") })
          (.error "x")).latest = some l ∧
        (checkForUpdates "1.2.0" false (.ok { latestVersion := some (some "1.10.0") })
          (.error "x")).isOutdated = decide (compareVersions "1.2.0" l < 0) ∧
        (checkForUpdates "1.2.0" false (.ok { latestVersion := some (some "1.10.0") })
          (.error "x")).isNewer = decide (0 < compareVersions "1.2.0" l) ∧
        (checkForUpdates "1.2.0" false (.ok { latestVersion := some (some "1.10.0") })
          (.error "x")).isCurrent = decide (compareVersions "1.2.0" l = 0))) ∧
    (checkForUpdates "1.2.0" false (.ok { latestVersion := some (some "1.10.0") })
        (.error "x")).isOutdated = true ∧
    (checkForUpdates "1.2.0" false (.ok { latestVersion := some (some "1.10.0") })
        (.error "x")).success = true :=
  ⟨c10_check_result "1.2.0" false (.ok { latestVersion := some (some "1.10.0") })
      (.error "x"),
   by decide, by decide⟩

end StickySpec
